import Mathlib

/-!
Verification development for the Eterna order-execution engine
(TypeScript source: `src/services/dex-router.ts`, `src/services/order-execution.ts`,
`src/queues/order-queue.ts`, `src/models/redis.ts`, `src/utils` helpers).

Numbers are modelled as rationals (ℚ); JS strings as `String`; promise
rejection as `Except String`. The nondeterministic parts of the mock venue
clients (random prices, random failures) are confined to the *inputs* of the
functions modelled here, exactly as the selection / validation / retry logic
of the source is deterministic given the quote outcomes.
-/

namespace Eterna

/-- `OrderStatus` enum from `src/types` (part_004). -/
inductive OrderStatus
  | pending
  | routing
  | building
  | submitted
  | confirmed
  | failed
deriving DecidableEq, Repr

/-- String value of each `OrderStatus` enum member, as interpolated by JS. -/
def OrderStatus.toStr : OrderStatus → String
  | .pending => "pending"
  | .routing => "routing"
  | .building => "building"
  | .submitted => "submitted"
  | .confirmed => "confirmed"
  | .failed => "failed"

/-- `DexProvider` enum from `src/types` (part_004). -/
inductive DexProvider
  | raydium
  | meteora
deriving DecidableEq, Repr

/-- `DexQuote` record (price, fee, slippage, estimatedGas, provider). -/
structure DexQuote where
  price : ℚ
  fee : ℚ
  slippage : ℚ
  estimatedGas : ℚ
  provider : DexProvider
deriving DecidableEq, Repr

/-- `RoutingDecision` record from `src/types`. In the one-venue branches of
`getBestRoute` the source assigns the absent quote (a `null` asserted
non-null) to `alternativeQuote`, hence the `Option`. -/
structure RoutingDecision where
  selectedDex : DexProvider
  selectedQuote : DexQuote
  alternativeQuote : Option DexQuote
  reason : String
  priceImprovement : ℚ
deriving DecidableEq, Repr

/-- Left-pad a digit string with zeros to width `n` (for `toFixed`). -/
def padZeros (s : String) (n : Nat) : String :=
  if s.length ≥ n then s else String.mk (List.replicate (n - s.length) '0') ++ s

/-- JS `Number.prototype.toFixed(6)` used in the `reason` strings of
`getBestRoute` (dex-router.ts:218,226): round to six decimal places and
render with exactly six fractional digits. -/
def toFixed6 (q : ℚ) : String :=
  let sign := if q < 0 then "-" else ""
  let scaled : Int := (|q| * 1000000 + 1/2).floor
  let n := scaled.toNat
  sign ++ toString (n / 1000000) ++ "." ++ padZeros (toString (n % 1000000)) 6

/-- JS `Array.prototype.join(', ')` used on the venue error list
(dex-router.ts:182). -/
def joinComma : List String → String
  | [] => ""
  | [s] => s
  | s :: rest => s ++ ", " ++ joinComma rest

/-- Net price of a quote: `price * (1 - fee - slippage)`
(dex-router.ts:207-208). -/
def netPrice (q : DexQuote) : ℚ :=
  q.price * (1 - q.fee - q.slippage)

/-- Result record of `getAllQuotes` (dex-router.ts:144-172). -/
structure AllQuotes where
  raydiumQuote : Option DexQuote
  meteoraQuote : Option DexQuote
  errors : List String
deriving DecidableEq, Repr

/-- `MockDexRouter.getAllQuotes` settlement logic (dex-router.ts:149-171):
each venue call either fulfills with a quote or rejects with a message; a
rejection contributes `"<Venue>: <message>"` to `errors`. -/
def getAllQuotes (raydiumResult meteoraResult : Except String DexQuote) : AllQuotes :=
  let raydiumQuote := match raydiumResult with
    | .ok q => some q
    | .error _ => none
  let meteoraQuote := match meteoraResult with
    | .ok q => some q
    | .error _ => none
  let errorsRay := match raydiumResult with
    | .ok _ => ([] : List String)
    | .error m => ["Raydium: " ++ m]
  let errorsMet := match meteoraResult with
    | .ok _ => ([] : List String)
    | .error m => ["Meteora: " ++ m]
  ⟨raydiumQuote, meteoraQuote, errorsRay ++ errorsMet⟩

/-- `MockDexRouter.getBestRoute` (dex-router.ts:177-230), as a function of
the two venue-call outcomes (the only nondeterministic inputs). -/
def getBestRoute (raydiumResult meteoraResult : Except String DexQuote) :
    Except String RoutingDecision :=
  let aq := getAllQuotes raydiumResult meteoraResult
  match aq.raydiumQuote, aq.meteoraQuote with
  | none, none =>
      .error ("All DEXs unavailable: " ++ joinComma aq.errors)
  | none, some meteoraQuote =>
      .ok { selectedDex := .meteora
            selectedQuote := meteoraQuote
            alternativeQuote := none
            reason := "Raydium unavailable, using Meteora"
            priceImprovement := 0 }
  | some raydiumQuote, none =>
      .ok { selectedDex := .raydium
            selectedQuote := raydiumQuote
            alternativeQuote := none
            reason := "Meteora unavailable, using Raydium"
            priceImprovement := 0 }
  | some raydiumQuote, some meteoraQuote =>
      let raydiumNetPrice := netPrice raydiumQuote
      let meteoraNetPrice := netPrice meteoraQuote
      let isRaydiumBetter := raydiumNetPrice > meteoraNetPrice
      let priceImprovement :=
        |raydiumNetPrice - meteoraNetPrice| / min raydiumNetPrice meteoraNetPrice
      if isRaydiumBetter then
        .ok { selectedDex := .raydium
              selectedQuote := raydiumQuote
              alternativeQuote := some meteoraQuote
              reason := "Better net price: " ++ toFixed6 raydiumNetPrice ++
                        " vs " ++ toFixed6 meteoraNetPrice
              priceImprovement := priceImprovement * 100 }
      else
        .ok { selectedDex := .meteora
              selectedQuote := meteoraQuote
              alternativeQuote := some raydiumQuote
              reason := "Better net price: " ++ toFixed6 meteoraNetPrice ++
                        " vs " ++ toFixed6 raydiumNetPrice
              priceImprovement := priceImprovement * 100 }

/-- `Order` record (the fields relevant to lifecycle and cancellation;
timestamps omitted). -/
structure Order where
  id : String
  tokenIn : String
  tokenOut : String
  amount : ℚ
  slippage : ℚ
  status : OrderStatus
  selectedDex : Option DexProvider
  estimatedPrice : Option ℚ
  executedPrice : Option ℚ
  txHash : Option String
  errorMessage : Option String
deriving DecidableEq, Repr

/-- The Redis active-order store (`order:<id>` keys, part_006), as an
association list from order id to order. -/
abbrev OrderStore := List (String × Order)

/-- `RedisService.getActiveOrder` (part_006): lookup by id. -/
def getActiveOrder (store : OrderStore) (orderId : String) : Option Order :=
  (store.find? (fun p => p.1 = orderId)).map Prod.snd

/-- `RedisService.setActiveOrder` (part_006): write (replace or insert) the
order under its key. -/
def setActiveOrder (store : OrderStore) (orderId : String) (o : Order) : OrderStore :=
  if (store.find? (fun p => p.1 = orderId)).isSome then
    store.map (fun p => if p.1 = orderId then (orderId, o) else p)
  else
    store ++ [(orderId, o)]

/-- `RedisService.updateOrderStatus` (part_006:47-57): read the active
order; if absent do nothing; otherwise set `status`, apply the
`additionalData` patch (JS `Object.assign`), and write back. -/
def updateOrderStatus (store : OrderStore) (orderId : String) (status : OrderStatus)
    (additionalData : Order → Order) : OrderStore :=
  match getActiveOrder store orderId with
  | none => store
  | some o => setActiveOrder store orderId (additionalData { o with status := status })

/-- `OrderRequest` (tokenIn, tokenOut, amount, slippage), with both token
fields present as strings and amount/slippage present as numbers. -/
structure OrderRequest where
  tokenIn : String
  tokenOut : String
  amount : ℚ
  slippage : ℚ
deriving DecidableEq, Repr

/-- `OrderExecutionService.validateOrderRequest` (order-execution.ts:318-334),
returning the message of the first `Error` thrown, or `none` when the
request passes. JS falsiness: `!request.tokenIn` is true for the empty
string, `!request.amount` and `!request.slippage` are true for `0`. -/
def validateOrderRequest (request : OrderRequest) : Option String :=
  if request.tokenIn = "" ∨ request.tokenOut = "" then
    some "tokenIn and tokenOut are required"
  else if request.tokenIn = request.tokenOut then
    some "tokenIn and tokenOut must be different"
  else if request.amount = 0 ∨ request.amount ≤ 0 then
    some "amount must be greater than 0"
  else if request.slippage = 0 ∨ request.slippage < 0 ∨ request.slippage > 1/2 then
    some "slippage must be between 0 and 0.5 (50%)"
  else
    none

/-- Effects of `OrderExecutionService.submitOrder` (order-execution.ts:13-47)
visible to the caller: the synchronous outcome, and whether an order was
created / a job enqueued. -/
structure SubmitEffects where
  result : Except String Unit
  orderCreated : Bool
  jobEnqueued : Bool
deriving Repr

/-- `submitOrder`: validation runs first and throws synchronously; only a
request that passes validation reaches `db.createOrder` and
`orderQueue.addOrder`. -/
def submitOrder (request : OrderRequest) : SubmitEffects :=
  match validateOrderRequest request with
  | some msg => ⟨.error msg, false, false⟩
  | none => ⟨.ok (), true, true⟩

/-- Outcome of `OrderExecutionService.cancelOrder`: the error message thrown
(if any) and the resulting store. -/
structure CancelResult where
  error : Option String
  store : OrderStore
deriving DecidableEq, Repr

/-- `OrderExecutionService.cancelOrder` (order-execution.ts:231-275) composed
with `OrderQueue.cancelOrder` (order-queue.ts:179-190). `jobInQueue` models
whether `queue.getJob(orderId)` still finds the job; when it does not, the
queue helper throws inside the `try` block and the service rethrows
`'Failed to cancel order'` before any store mutation. -/
def cancelOrder (store : OrderStore) (jobInQueue : Bool) (orderId : String) : CancelResult :=
  match getActiveOrder store orderId with
  | none => ⟨some "Order not found", store⟩
  | some o =>
      if o.status ≠ OrderStatus.pending then
        ⟨some ("Cannot cancel order in " ++ o.status.toStr ++ " state"), store⟩
      else if jobInQueue then
        ⟨none, updateOrderStatus store orderId OrderStatus.failed
                 (fun x => { x with errorMessage := some "Cancelled by user" })⟩
      else
        ⟨some "Failed to cancel order", store⟩

/-- Trace of one run of the `retry` helper (part_005:101-125): the final
outcome, how many times `fn` was invoked, and the sleeps performed between
consecutive attempts (milliseconds). -/
structure RetryTrace (α : Type) where
  result : Except String α
  calls : Nat
  delays : List Nat
deriving Repr

/-- The `for attempt = 1..maxAttempts` loop of `retry`, entered at `attempt`:
call `fn`; return on success; on the last attempt rethrow the error;
otherwise sleep `baseDelay * 2^(attempt-1)` and continue. `fn` is indexed by
the attempt number so a caller can model per-invocation outcomes. -/
def retryFrom (fn : Nat → Except String α) (maxAttempts baseDelay attempt : Nat) :
    RetryTrace α :=
  match fn attempt with
  | .ok v => ⟨.ok v, 1, []⟩
  | .error e =>
      if maxAttempts ≤ attempt then
        ⟨.error e, 1, []⟩
      else
        let delay := baseDelay * 2 ^ (attempt - 1)
        let rest := retryFrom fn maxAttempts baseDelay (attempt + 1)
        ⟨rest.result, rest.calls + 1, delay :: rest.delays⟩
termination_by maxAttempts - attempt

/-- `retry(fn, maxAttempts, baseDelay)` (part_005): the loop starts at
attempt 1. Source defaults: `maxAttempts = 3`, `baseDelay = 1000`. -/
def retry (fn : Nat → Except String α) (maxAttempts baseDelay : Nat) : RetryTrace α :=
  retryFrom fn maxAttempts baseDelay 1

/-- Result of `OrderQueue.getStats` (order-queue.ts:129-154). -/
structure QueueStats where
  waiting : Nat
  active : Nat
  completed : Nat
  failed : Nat
  delayed : Nat
  paused : Nat
deriving DecidableEq, Repr

/-- Worker concurrency configured in the `OrderQueue` constructor
(order-queue.ts:41): `concurrency: 10`. -/
def workerConcurrency : Nat := 10

/-- The `isHealthy` computation of `OrderQueue.healthCheck`
(order-queue.ts:231): `stats.active < 15 && stats.waiting < 50`. -/
def healthCheckIsHealthy (stats : QueueStats) : Bool :=
  stats.active < 15 && stats.waiting < 50

/-! ### Order lifecycle trace

Statuses written to the store / published per processing attempt of one
order. Within a job attempt the writes come from:
  * the worker `active` event handler (order-queue.ts:57-60), which writes
    `pending` at the start of every attempt, retries included;
  * `processOrder` (order-execution.ts:52-211), which writes `routing`,
    then on success `building`, `submitted`, `confirmed`; any thrown error
    (route selection at order-execution.ts:67, or swap execution at
    order-execution.ts:130) lands in the `catch` block, which writes
    `failed` and rethrows for the queue retry logic.
BullMQ re-runs a failed job while attempts remain (attempts: 3,
order-queue.ts:21) and stops after a successful attempt. -/

/-- How one processing attempt of `processOrder` ends. -/
inductive AttemptOutcome
  | success
  | failDuringRouting
  | failDuringExecution
deriving DecidableEq, Repr

/-- Statuses written during a single job attempt, in order. -/
def attemptTrace : AttemptOutcome → List OrderStatus
  | .success =>
      [.pending, .routing, .building, .submitted, .confirmed]
  | .failDuringRouting =>
      [.pending, .routing, .failed]
  | .failDuringExecution =>
      [.pending, .routing, .building, .submitted, .failed]

/-- Concatenated writes of successive attempts: retries stop after a
successful attempt. -/
def attemptsRun : List AttemptOutcome → List OrderStatus
  | [] => []
  | o :: rest =>
      attemptTrace o ++ (if o = .success then [] else attemptsRun rest)

/-- A job has terminally failed when it used all 3 configured attempts
(order-queue.ts:21) and none succeeded; the worker `failed` event handler
(order-queue.ts:68-77) then writes `failed` once more. -/
def jobFinallyFailed (outcomes : List AttemptOutcome) : Bool :=
  outcomes.length = 3 && outcomes.all (fun o => o != AttemptOutcome.success)

/-- Full status-write trace of one order: `submitOrder` writes and publishes
the initial `pending` (order-execution.ts:20,36-40), then the queue
attempts run, then the worker `failed` handler writes `failed` if the job
exhausted its attempts. -/
def orderTrace (outcomes : List AttemptOutcome) : List OrderStatus :=
  OrderStatus.pending :: attemptsRun outcomes ++
    (if jobFinallyFailed outcomes then [OrderStatus.failed] else [])

/-- Terminal states of the lifecycle (§4.3): `confirmed` and `failed`. -/
def isTerminal : OrderStatus → Bool
  | .confirmed => true
  | .failed => true
  | _ => false

/-- One observed step is consistent with the §4.3 transition graph:
re-entering the same state is a no-op, the forward path is
`pending→routing→building→submitted→confirmed`, and `failed` is reachable
from every non-terminal state. -/
def legalStep (s t : OrderStatus) : Bool :=
  (s = t) ||
  (match s, t with
   | .pending, .routing => true
   | .routing, .building => true
   | .building, .submitted => true
   | .submitted, .confirmed => true
   | .pending, .failed => true
   | .routing, .failed => true
   | .building, .failed => true
   | .submitted, .failed => true
   | _, _ => false)

/-- Every consecutive pair of the trace is a legal step. -/
def chainOk : List OrderStatus → Bool
  | [] => true
  | [_] => true
  | s :: t :: rest => legalStep s t && chainOk (t :: rest)

/-- No status is written after a terminal status appears in the trace. -/
def noWriteAfterTerminal : List OrderStatus → Bool
  | [] => true
  | s :: rest => if isTerminal s then rest.isEmpty else noWriteAfterTerminal rest

/-- After a terminal status, at most repeats of that same terminal status
(no-op re-entries) are written. -/
def noNewWriteAfterTerminal : List OrderStatus → Bool
  | [] => true
  | s :: rest =>
      if isTerminal s then rest.all (fun t => t = s)
      else noNewWriteAfterTerminal rest

/-- Order-level effects of one `processOrder` attempt
(order-execution.ts:52-211), as a function of the routing outcome and of
the swap-execution outcome (`executeSwap` returning the executed price).
On routing success the order is updated with `selectedDex` and
`estimatedPrice` (order-execution.ts:89-92) before execution; the `catch`
block sets `failed` plus the error message and touches nothing else. -/
structure ProcessEffects where
  finalStatus : OrderStatus
  selectedDex : Option DexProvider
  estimatedPrice : Option ℚ
  executedPrice : Option ℚ
  errorMessage : Option String
deriving DecidableEq, Repr

/-- `processOrder` effects given the two fallible collaborator outcomes. -/
def processOrder (route : Except String RoutingDecision)
    (execution : RoutingDecision → Except String ℚ) : ProcessEffects :=
  match route with
  | .error msg =>
      ⟨.failed, none, none, none, some msg⟩
  | .ok d =>
      match execution d with
      | .error msg =>
          ⟨.failed, some d.selectedDex, some d.selectedQuote.price, none, some msg⟩
      | .ok executedPrice =>
          ⟨.confirmed, some d.selectedDex, some d.selectedQuote.price,
           some executedPrice, none⟩

/-- A demo order sitting in the `routing` state, and a store holding it
(used by witnesses below). -/
def demoOrder : Order :=
  ⟨"ord1", "SOL", "USDC", 100, 0, .routing, none, none, none, none, none⟩

/-- A store with exactly the demo order. -/
def demoStore : OrderStore := [("ord1", demoOrder)]

/-! ## Theorems -/

/-- C1: when both venue quotes succeed (with positive net prices, as the
mock venues always produce), `getBestRoute` selects the venue whose net
price `price * (1 - fee - slippage)` is strictly higher, and the returned
`priceImprovement` equals `|netRaydium - netMeteora| / min(netRaydium,
netMeteora)` times 100 and is nonnegative. -/
theorem getBestRoute_selects_higher_net_price (rq mq : DexQuote)
    (hray : 0 < netPrice rq) (hmet : 0 < netPrice mq) :
    (netPrice mq < netPrice rq →
      (getBestRoute (.ok rq) (.ok mq)).toOption.map RoutingDecision.selectedDex =
        some DexProvider.raydium) ∧
    (netPrice rq < netPrice mq →
      (getBestRoute (.ok rq) (.ok mq)).toOption.map RoutingDecision.selectedDex =
        some DexProvider.meteora) ∧
    (getBestRoute (.ok rq) (.ok mq)).toOption.map RoutingDecision.priceImprovement =
      some (|netPrice rq - netPrice mq| / min (netPrice rq) (netPrice mq) * 100) ∧
    0 ≤ |netPrice rq - netPrice mq| / min (netPrice rq) (netPrice mq) * 100 := by
  have hmin : 0 < min (netPrice rq) (netPrice mq) := lt_min hray hmet
  have hnn : 0 ≤ |netPrice rq - netPrice mq| / min (netPrice rq) (netPrice mq) * 100 :=
    mul_nonneg (div_nonneg (abs_nonneg _) hmin.le) (by norm_num)
  by_cases hgt : netPrice mq < netPrice rq
  · refine ⟨fun _ => ?_, fun hlt => absurd hlt (lt_asymm hgt), ?_, hnn⟩ <;>
      simp [getBestRoute, getAllQuotes, hgt, Except.toOption]
  · refine ⟨fun hlt => absurd hlt hgt, fun _ => ?_, ?_, hnn⟩ <;>
      simp [getBestRoute, getAllQuotes, hgt, Except.toOption]

/-- C1 witness: concrete two-quote calls in both directions. With net prices
101 vs 100 Raydium is selected; with 100 vs 101 Meteora is selected. -/
theorem getBestRoute_selects_higher_net_price_witness :
    (0 : ℚ) < netPrice ⟨101, 0, 0, 0, DexProvider.raydium⟩ ∧
    (0 : ℚ) < netPrice ⟨100, 0, 0, 0, DexProvider.meteora⟩ ∧
    netPrice ⟨100, 0, 0, 0, DexProvider.meteora⟩ <
      netPrice ⟨101, 0, 0, 0, DexProvider.raydium⟩ ∧
    (getBestRoute (.ok ⟨101, 0, 0, 0, DexProvider.raydium⟩)
        (.ok ⟨100, 0, 0, 0, DexProvider.meteora⟩)).toOption.map
      RoutingDecision.selectedDex = some DexProvider.raydium ∧
    (getBestRoute (.ok ⟨100, 0, 0, 0, DexProvider.raydium⟩)
        (.ok ⟨101, 0, 0, 0, DexProvider.meteora⟩)).toOption.map
      RoutingDecision.selectedDex = some DexProvider.meteora := by
  have h101 : (0 : ℚ) < netPrice ⟨101, 0, 0, 0, DexProvider.raydium⟩ := by
    norm_num [netPrice]
  have h100 : (0 : ℚ) < netPrice ⟨100, 0, 0, 0, DexProvider.meteora⟩ := by
    norm_num [netPrice]
  have hlt : netPrice ⟨100, 0, 0, 0, DexProvider.meteora⟩ <
      netPrice ⟨101, 0, 0, 0, DexProvider.raydium⟩ := by
    norm_num [netPrice]
  refine ⟨h101, h100, hlt, ?_, ?_⟩
  · exact (getBestRoute_selects_higher_net_price
      ⟨101, 0, 0, 0, DexProvider.raydium⟩ ⟨100, 0, 0, 0, DexProvider.meteora⟩
      h101 h100).1 hlt
  · exact (getBestRoute_selects_higher_net_price
      ⟨100, 0, 0, 0, DexProvider.raydium⟩ ⟨101, 0, 0, 0, DexProvider.meteora⟩
      (by norm_num [netPrice]) (by norm_num [netPrice])).2.1 (by norm_num [netPrice])

/-- C2 counterexample: a first attempt that fails during routing writes the
terminal `failed`, and the queue retry's `active` event handler then writes
`pending` again (order-queue.ts:57-60), so statuses are written after a
terminal state and the observed sequence leaves the transition graph. -/
theorem orderTrace_status_written_after_terminal :
    noWriteAfterTerminal (orderTrace [.failDuringRouting, .success]) = false ∧
    noNewWriteAfterTerminal (orderTrace [.failDuringRouting, .success]) = false ∧
    chainOk (orderTrace [.failDuringRouting, .success]) = false := by decide

/-- C2 amended: within a single processing attempt (the initial `pending`
write of `submitOrder` followed by that attempt's writes) the statuses
follow the transition graph `pending → routing → building → submitted →
confirmed` with `failed` reachable from any non-terminal state, nothing but
no-op repeats of the terminal status follows a terminal state, and the
attempt ends in `confirmed` exactly when it succeeded; across queue retry
attempts of the same order this fails: a new attempt writes `pending` after
the previous attempt's `failed` (see the counterexample). -/
theorem orderTrace_single_attempt_monotonic :
    ∀ o : AttemptOutcome,
      chainOk (orderTrace [o]) = true ∧
      noNewWriteAfterTerminal (orderTrace [o]) = true ∧
      (orderTrace [o]).getLast? =
        some (if o = .success then OrderStatus.confirmed else OrderStatus.failed) := by
  intro o
  cases o <;> exact ⟨rfl, rfl, rfl⟩

/-- C3 (code bug): the request `{tokenIn := "SOL", tokenOut := "USDC",
amount := 100, slippage := 0}` has distinct tokens, a positive amount and a
slippage inside the spec's closed interval `[0, 0.5]`, yet
`validateOrderRequest` rejects it — the JS guard `!request.slippage`
(order-execution.ts:331) treats the number `0` as missing, contradicting
the code's own error message `between 0 and 0.5` — and `submitOrder`
consequently neither creates an order nor enqueues a job. -/
theorem validateOrderRequest_rejects_zero_slippage :
    validateOrderRequest ⟨"SOL", "USDC", 100, 0⟩ =
      some "slippage must be between 0 and 0.5 (50%)" ∧
    ((0 : ℚ) ≤ 0 ∧ (0 : ℚ) ≤ 1/2) ∧
    (submitOrder ⟨"SOL", "USDC", 100, 0⟩).jobEnqueued = false ∧
    (submitOrder ⟨"SOL", "USDC", 100, 0⟩).orderCreated = false := by
  refine ⟨by decide, ⟨le_refl 0, by norm_num⟩, rfl, rfl⟩

/-- C4: a processing callback that fails on every invocation is called
exactly 3 times by `retry` (1 initial attempt + 2 retries), the waits
between consecutive attempts are `baseDelay * 2^(attempt-1)` (so 1000 ms
then 2000 ms for the source default `baseDelay = 1000`), and the error of
the final attempt is propagated. -/
theorem retry_always_failing_three_calls {α : Type} (fn : Nat → Except String α)
    (e : Nat → String) (baseDelay : Nat) (h : ∀ n, fn n = .error (e n)) :
    retry fn 3 baseDelay =
      ⟨.error (e 3), 3, [baseDelay * 2 ^ 0, baseDelay * 2 ^ 1]⟩ := by
  simp [retry, retryFrom, h]

/-- C4 witness: a concretely failing callback with the source defaults
`maxAttempts = 3`, `baseDelay = 1000`. -/
theorem retry_always_failing_three_calls_witness :
    retry (fun n => (.error (toString n) : Except String Unit)) 3 1000 =
      ⟨.error "3", 3, [1000, 2000]⟩ :=
  retry_always_failing_three_calls (fun n => .error (toString n))
    (fun n => toString n) 1000 (fun _ => rfl)

/-- C5: `cancelOrder` raises `Order not found` for an unknown order id and
`Cannot cancel order in <state> state` for a known order whose status is
not `pending`, leaving the store unchanged on both error paths, and it can
succeed only when the order exists with status `pending`. -/
theorem cancelOrder_pending_guard (store : OrderStore) (jobInQueue : Bool)
    (orderId : String) :
    (getActiveOrder store orderId = none →
      cancelOrder store jobInQueue orderId = ⟨some "Order not found", store⟩) ∧
    (∀ o, getActiveOrder store orderId = some o → o.status ≠ .pending →
      cancelOrder store jobInQueue orderId =
        ⟨some ("Cannot cancel order in " ++ o.status.toStr ++ " state"), store⟩) ∧
    ((cancelOrder store jobInQueue orderId).error = none →
      ∃ o, getActiveOrder store orderId = some o ∧ o.status = .pending) := by
  refine ⟨fun hnone => ?_, fun o hsome hnp => ?_, fun hok => ?_⟩
  · simp [cancelOrder, hnone]
  · simp [cancelOrder, hsome, hnp]
  · unfold cancelOrder at hok
    cases hfind : getActiveOrder store orderId with
    | none => simp [hfind] at hok
    | some o =>
        refine ⟨o, rfl, ?_⟩
        rw [hfind] at hok
        by_cases hp : o.status = OrderStatus.pending
        · exact hp
        · simp [hp] at hok

/-- C5 witness: on a store holding one order in the `routing` state, an
unknown id gets `Order not found` and the known id gets the
state-naming rejection, both leaving the store unchanged. -/
theorem cancelOrder_pending_guard_witness :
    cancelOrder demoStore true "missing" = ⟨some "Order not found", demoStore⟩ ∧
    cancelOrder demoStore true "ord1" =
      ⟨some "Cannot cancel order in routing state", demoStore⟩ :=
  ⟨(cancelOrder_pending_guard demoStore true "missing").1 rfl,
   (cancelOrder_pending_guard demoStore true "ord1").2.1 demoOrder rfl (by decide)⟩

/-- C6: when both venue quotes fail, `getBestRoute` throws
`All DEXs unavailable: Raydium: <reason>, Meteora: <reason>` (naming both
venues with their failure reasons), and on this path `processOrder` ends the
order in `failed` with `selectedDex`, `estimatedPrice` and `executedPrice`
never set and the aggregated message as the error reason. -/
theorem getBestRoute_total_failure_aborts_order (rErr mErr : String)
    (exec : RoutingDecision → Except String ℚ) :
    getBestRoute (.error rErr) (.error mErr) =
      .error ("All DEXs unavailable: " ++
        ("Raydium: " ++ rErr ++ ", " ++ ("Meteora: " ++ mErr))) ∧
    processOrder (getBestRoute (.error rErr) (.error mErr)) exec =
      ⟨.failed, none, none, none,
        some ("All DEXs unavailable: " ++
          ("Raydium: " ++ rErr ++ ", " ++ ("Meteora: " ++ mErr)))⟩ :=
  ⟨rfl, rfl⟩

/-- C7: when exactly one venue quote succeeds, `getBestRoute` selects the
responding venue with `priceImprovement = 0` and a reason naming the
unavailable venue. -/
theorem getBestRoute_single_venue_fallback (q : DexQuote) (msg : String) :
    getBestRoute (.error msg) (.ok q) =
      .ok ⟨.meteora, q, none, "Raydium unavailable, using Meteora", 0⟩ ∧
    getBestRoute (.ok q) (.error msg) =
      .ok ⟨.raydium, q, none, "Meteora unavailable, using Raydium", 0⟩ :=
  ⟨rfl, rfl⟩

/-- C8 counterexample: a stats snapshot with 11 active jobs — strictly more
than the configured worker pool size of 10 — and an empty backlog is still
reported healthy, because `healthCheck` compares against 15, not the pool
size. -/
theorem healthCheck_healthy_above_worker_pool :
    workerConcurrency < 11 ∧
    healthCheckIsHealthy ⟨0, 11, 0, 0, 0, 0⟩ = true := by decide

/-- C8 amended: `healthCheck` reports degraded (`isHealthy = false`) exactly
when the active count is at least 15 or the waiting count is at least 50;
the active threshold is the hard-coded 15 of order-queue.ts:231, not the
worker pool size 10, so active counts of 11–14 with a small backlog are
still reported healthy. -/
theorem healthCheck_degraded_iff_thresholds (stats : QueueStats) :
    healthCheckIsHealthy stats = false ↔ 15 ≤ stats.active ∨ 50 ≤ stats.waiting := by
  simp [healthCheckIsHealthy, Nat.not_lt]
  omega

/-- C9: when both venue quotes succeed with exactly equal net prices,
`getBestRoute` selects Meteora with `priceImprovement = 0`; more generally
whenever Raydium's net price is not strictly greater, Meteora is selected —
so Raydium is chosen only when its net price is strictly greater. -/
theorem getBestRoute_tie_selects_meteora (rq mq : DexQuote) :
    (netPrice rq = netPrice mq →
      (getBestRoute (.ok rq) (.ok mq)).toOption.map RoutingDecision.selectedDex =
        some DexProvider.meteora ∧
      (getBestRoute (.ok rq) (.ok mq)).toOption.map RoutingDecision.priceImprovement =
        some 0) ∧
    (netPrice rq ≤ netPrice mq →
      (getBestRoute (.ok rq) (.ok mq)).toOption.map RoutingDecision.selectedDex =
        some DexProvider.meteora) := by
  constructor
  · intro heq
    constructor <;> simp [getBestRoute, getAllQuotes, heq, lt_irrefl, Except.toOption]
  · intro hle
    simp [getBestRoute, getAllQuotes, not_lt.mpr hle, Except.toOption]

/-- C9 witness: two quotes with net price 100 each — Meteora is selected
and the price improvement is 0. -/
theorem getBestRoute_tie_selects_meteora_witness :
    (getBestRoute (.ok ⟨100, 0, 0, 0, DexProvider.raydium⟩)
        (.ok ⟨100, 0, 0, 0, DexProvider.meteora⟩)).toOption.map
      RoutingDecision.selectedDex = some DexProvider.meteora ∧
    (getBestRoute (.ok ⟨100, 0, 0, 0, DexProvider.raydium⟩)
        (.ok ⟨100, 0, 0, 0, DexProvider.meteora⟩)).toOption.map
      RoutingDecision.priceImprovement = some 0 :=
  (getBestRoute_tie_selects_meteora
    ⟨100, 0, 0, 0, DexProvider.raydium⟩ ⟨100, 0, 0, 0, DexProvider.meteora⟩).1 rfl

/-- C10: a status update for an order id with no entry in the active-order
store is silently dropped: `updateOrderStatus` leaves the store unchanged
and reports no error. -/
theorem updateOrderStatus_unknown_order_noop (store : OrderStore) (orderId : String)
    (status : OrderStatus) (additionalData : Order → Order)
    (h : getActiveOrder store orderId = none) :
    updateOrderStatus store orderId status additionalData = store := by
  unfold updateOrderStatus
  rw [h]

/-- C10 witness: updating an id absent from a non-empty store is a no-op. -/
theorem updateOrderStatus_unknown_order_noop_witness :
    updateOrderStatus demoStore "missing" .failed id = demoStore :=
  updateOrderStatus_unknown_order_noop demoStore "missing" .failed id rfl

end Eterna
